import Mathlib

/-
Verification of the quadrotor simulation core: a shallow embedding of the
rotation utility, the two rigid-body dynamics variants, and the cascaded PD
controller found in the notebooks `3-Reworking.ipynb` and
`5-Controller-Full.ipynb`, with theorems settling the specified properties.

Numbers are modelled as real numbers; numpy 3-vectors, 3x3 matrices and
xyzw quaternions become explicit record types.
-/

noncomputable section

namespace Quadrotor

/-- A 3-vector (a numpy array of length 3 in the source). -/
@[ext]
structure Vec3 where
  x : ℝ
  y : ℝ
  z : ℝ

/-- Componentwise vector addition (numpy `+`). -/
def vadd (a b : Vec3) : Vec3 := ⟨a.x + b.x, a.y + b.y, a.z + b.z⟩

/-- Componentwise vector subtraction (numpy `-`). -/
def vsub (a b : Vec3) : Vec3 := ⟨a.x - b.x, a.y - b.y, a.z - b.z⟩

/-- Scalar-vector product (numpy scalar `*` array). -/
def smul (c : ℝ) (v : Vec3) : Vec3 := ⟨c * v.x, c * v.y, c * v.z⟩

/-- The zero 3-vector (`np.zeros(3)`). -/
def vzero : Vec3 := ⟨0, 0, 0⟩

/-- Cross product of 3-vectors (`np.cross`). -/
def vcross (a b : Vec3) : Vec3 :=
  ⟨a.y * b.z - a.z * b.y, a.z * b.x - a.x * b.z, a.x * b.y - a.y * b.x⟩

/-- A 3x3 matrix with entries `mRC` for row R, column C. -/
@[ext]
structure Mat3 where
  m00 : ℝ
  m01 : ℝ
  m02 : ℝ
  m10 : ℝ
  m11 : ℝ
  m12 : ℝ
  m20 : ℝ
  m21 : ℝ
  m22 : ℝ

/-- Matrix-vector product (numpy `@`). -/
def mulVec (M : Mat3) (v : Vec3) : Vec3 :=
  ⟨M.m00 * v.x + M.m01 * v.y + M.m02 * v.z,
   M.m10 * v.x + M.m11 * v.y + M.m12 * v.z,
   M.m20 * v.x + M.m21 * v.y + M.m22 * v.z⟩

/-- Diagonal matrix (`np.diag([a, b, c])`). -/
def diag (a b c : ℝ) : Mat3 := ⟨a, 0, 0, 0, b, 0, 0, 0, c⟩

/-- A quaternion in the xyzw storage order used by sym.Rot3
(`to_storage` returns `(q0, q1, q2, q3) = (x, y, z, w)`). -/
@[ext]
structure Quat where
  x : ℝ
  y : ℝ
  z : ℝ
  w : ℝ

/-- Squared 4-norm of a quaternion's storage. -/
def quatNormSq (q : Quat) : ℝ := q.x ^ 2 + q.y ^ 2 + q.z ^ 2 + q.w ^ 2

/-- The 4-dimensional dot product of two quaternions' storage vectors. -/
def quatDot (a b : Quat) : ℝ := a.x * b.x + a.y * b.y + a.z * b.z + a.w * b.w

/-- Hamilton quaternion product: sym.Rot3.compose, the rotation `a` applied
after `b`. -/
def compose (a b : Quat) : Quat :=
  ⟨a.w * b.x + a.x * b.w + a.y * b.z - a.z * b.y,
   a.w * b.y - a.x * b.z + a.y * b.w + a.z * b.x,
   a.w * b.z + a.x * b.y - a.y * b.x + a.z * b.w,
   a.w * b.w - a.x * b.x - a.y * b.y - a.z * b.z⟩

/-- sym.Rot3.inverse: for the unit quaternions Rot3 maintains, the inverse is
the conjugate. -/
def inverse (q : Quat) : Quat := ⟨-q.x, -q.y, -q.z, q.w⟩

/-- sym.Rot3.to_rotation_matrix: the standard body-to-world rotation matrix of
a unit quaternion in xyzw storage. -/
def toRotationMatrix (q : Quat) : Mat3 :=
  ⟨1 - 2 * (q.y ^ 2 + q.z ^ 2), 2 * (q.x * q.y - q.z * q.w), 2 * (q.x * q.z + q.y * q.w),
   2 * (q.x * q.y + q.z * q.w), 1 - 2 * (q.x ^ 2 + q.z ^ 2), 2 * (q.y * q.z - q.x * q.w),
   2 * (q.x * q.z - q.y * q.w), 2 * (q.y * q.z + q.x * q.w), 1 - 2 * (q.x ^ 2 + q.y ^ 2)⟩

/-- sym.Rot3.from_yaw_pitch_roll: aerospace Z-Y-X composition
`Rz(yaw) * Ry(pitch) * Rx(roll)` as quaternions. -/
def from_yaw_pitch_roll (yaw pitch roll : ℝ) : Quat :=
  compose ⟨0, 0, Real.sin (yaw / 2), Real.cos (yaw / 2)⟩
    (compose ⟨0, Real.sin (pitch / 2), 0, Real.cos (pitch / 2)⟩
      ⟨Real.sin (roll / 2), 0, 0, Real.cos (roll / 2)⟩)

/-- Two-argument arctangent on the plane, as used by the Euler-angle
decomposition of a rotation matrix. -/
def atan2 (y x : ℝ) : ℝ :=
  if 0 < x then Real.arctan (y / x)
  else if x < 0 then
    (if 0 ≤ y then Real.arctan (y / x) + Real.pi else Real.arctan (y / x) - Real.pi)
  else
    (if 0 < y then Real.pi / 2 else if y < 0 then -(Real.pi / 2) else 0)

/-- sym.Rot3.to_yaw_pitch_roll: Z-Y-X (yaw, pitch, roll) Euler decomposition of
the rotation matrix. The controller only reads component `.1` (the yaw). -/
def to_yaw_pitch_roll (q : Quat) : ℝ × ℝ × ℝ :=
  let R := toRotationMatrix q
  (atan2 R.m10 R.m00, -Real.arcsin R.m20, atan2 R.m21 R.m22)

/-- dRot3 from both notebooks: the quaternion parameter-rate
`quat_dot = (G(q).T @ omega) / 2` for body angular velocity omega, with
`G` the 3x4 kinematic matrix built from the xyzw storage `(q0,q1,q2,q3)`. -/
def dRot3 (R : Quat) (omega : Vec3) : Quat :=
  ⟨(R.w * omega.x - R.z * omega.y + R.y * omega.z) / 2,
   (R.z * omega.x + R.w * omega.y - R.x * omega.z) / 2,
   (-R.y * omega.x + R.x * omega.y + R.w * omega.z) / 2,
   (-R.x * omega.x - R.y * omega.y - R.z * omega.z) / 2⟩

/-! Vehicle parameters: the `Params` dataclass (identical in both notebooks),
with its default values. -/

/-- Params.mass, kilograms. -/
def mass : ℝ := 1.352

/-- Params.inertia: the diagonal inertia tensor. -/
def inertia : Mat3 := diag (9.8e-3) (10.02e-3) (18.6e-3)

/-- Params.rotor_diameter: 10 inches in meters. -/
def rotor_diameter : ℝ := 10 * 0.0254

/-- Params.static_thrust_coefficient. -/
def static_thrust_coefficient : ℝ := 0.14553

/-- Params.static_torque_coefficient. -/
def static_torque_coefficient : ℝ := 0.01047

/-- Params.arm_length, meters. -/
def arm_length : ℝ := 0.3814 / 2.0

/-- Params.g: gravitational acceleration. -/
def g : ℝ := 9.80665

/-- Params.rho: sea-level air density. -/
def rho : ℝ := 1.225

/-- Params.rotor_model: rho * c * D^4 / (4 pi^2). -/
def rotor_model (static_coefficient : ℝ) : ℝ :=
  rho * static_coefficient * rotor_diameter ^ 4 / (4 * Real.pi ^ 2)

/-- Params.k_thrust: thrust per squared rotor rate. -/
def k_thrust : ℝ := rotor_model static_thrust_coefficient

/-- Params.k_torque: torque per squared rotor rate. -/
def k_torque : ℝ := rotor_model static_torque_coefficient

/-- np.linalg.inv(p.inertia): the inverse of the fixed diagonal inertia matrix
is the diagonal matrix of reciprocal entries. -/
def inertiaInv : Mat3 := diag (1 / 9.8e-3) (1 / 10.02e-3) (1 / 18.6e-3)

/-! State, command, and trajectory data types from quadrotor.dynamics,
quadrotor.controller and quadrotor.trajectory as they are used by the
notebooks. -/

/-- QuadrotorState: the 13-element vehicle state. -/
@[ext]
structure QuadrotorState where
  position : Vec3
  velocity : Vec3
  orientation : Quat
  angular_velocity : Vec3

/-- QuadrotorCommands in the pre-mixed form used by 5-Controller-Full.ipynb: a
collective thrust scalar u1 and a body-torque vector u2. -/
@[ext]
structure QuadrotorCommands where
  u1 : ℝ
  u2 : Vec3

/-- Four per-rotor angular rates, the command form used by 3-Reworking.ipynb. -/
@[ext]
structure Rates4 where
  r0 : ℝ
  r1 : ℝ
  r2 : ℝ
  r3 : ℝ

/-- TrajectoryState: one desired-trajectory sample. -/
@[ext]
structure TrajectoryState where
  t : ℝ
  position : Vec3
  yaw : ℝ
  yaw_rate : ℝ

/-! The rigid-body dynamics of 3-Reworking.ipynb (FullQuadrotorDynamics there):
rotor-rate commands are mixed into u1 and u2 and the state derivative feeds an
ODE solve. The mixing and the derivative are embedded; the adaptive RK45 solve
is not a finite expression and stays outside the embedding. -/

/-- FullQuadrotorDynamics.rotor_thrust_model: thrust = k_thrust * rate^2 per
rotor (np.square). -/
def rotor_thrust_model (rotor_rates : Rates4) : Rates4 :=
  ⟨k_thrust * rotor_rates.r0 ^ 2, k_thrust * rotor_rates.r1 ^ 2,
   k_thrust * rotor_rates.r2 ^ 2, k_thrust * rotor_rates.r3 ^ 2⟩

/-- The body-frame collective thrust vector `u1 = [0, 0, sum(thrusts)]`
computed at the top of FullQuadrotorDynamics.step in 3-Reworking.ipynb. -/
def mixedU1 (input : Rates4) : Vec3 :=
  let thrusts := rotor_thrust_model input
  ⟨0, 0, thrusts.r0 + thrusts.r1 + thrusts.r2 + thrusts.r3⟩

/-- The mixed body torque `u2` computed at the top of
FullQuadrotorDynamics.step in 3-Reworking.ipynb: roll and pitch from
opposite-rotor thrust differences scaled by arm length, and a yaw component
`k_torque * (rates[0] - rates[1] + rates[2] - rates[3])` on the raw rates. -/
def mixedU2 (input : Rates4) : Vec3 :=
  let thrusts := rotor_thrust_model input
  ⟨arm_length * (thrusts.r0 - thrusts.r2),
   arm_length * (thrusts.r1 - thrusts.r3),
   k_torque * (input.r0 - input.r1 + input.r2 - input.r3)⟩

/-- FullQuadrotorDynamics.state_derivative from 3-Reworking.ipynb: linear
acceleration `(1/mass) * (R @ u1 + mass * gravity)`, the rigid-body Euler
equation for angular acceleration, and the dRot3 parameter-rate for the
orientation slot. -/
def state_derivative (state : QuadrotorState) (u1 u2 : Vec3) : QuadrotorState :=
  let R := toRotationMatrix state.orientation
  let gravity : Vec3 := ⟨0, 0, -g⟩
  let accel := smul (1 / mass) (vadd (mulVec R u1) (smul mass gravity))
  let omega := state.angular_velocity
  let angular_accel := mulVec inertiaInv (vsub u2 (vcross omega (mulVec inertia omega)))
  ⟨state.velocity, accel, dRot3 state.orientation omega, angular_accel⟩

/-! The rigid-body dynamics of 5-Controller-Full.ipynb (FullQuadrotorDynamics
there): a single explicit Euler update with a timestep fixed inside the
method. -/

/-- FullQuadrotorDynamics.step from 5-Controller-Full.ipynb, transcribed
line by line: `dt = 0.005` fixed inside the method, acceleration
`(u1/mass)*[0,0,1] - [0,0,g]`, semi-implicit position update, Euler equation
for angular acceleration, and `new_orientation = dRot3(orientation,
new_angular_velocity)`. -/
def stepEuler (commands : QuadrotorCommands) (state : QuadrotorState) : QuadrotorState :=
  let dt : ℝ := 0.005
  let acceleration := vsub (smul (commands.u1 / mass) ⟨0, 0, 1⟩) ⟨0, 0, g⟩
  let new_velocity := vadd state.velocity (smul dt acceleration)
  let new_position := vadd state.position (smul dt new_velocity)
  let angular_acceleration :=
    mulVec inertiaInv
      (vsub commands.u2 (vcross state.angular_velocity (mulVec inertia state.angular_velocity)))
  let new_angular_velocity := vadd state.angular_velocity (smul dt angular_acceleration)
  let new_orientation := dRot3 state.orientation new_angular_velocity
  ⟨new_position, new_velocity, new_orientation, new_angular_velocity⟩

/-- Modelled from the spec: the same Euler update advanced by an arbitrary
driver-configured timestep dt (spec 4.2 step 5, integrate forward by dt with a
single explicit Euler step), for comparison with stepEuler, whose timestep is
fixed at 0.005 inside the method. -/
def stepEulerBy (dt : ℝ) (commands : QuadrotorCommands) (state : QuadrotorState) :
    QuadrotorState :=
  let acceleration := vsub (smul (commands.u1 / mass) ⟨0, 0, 1⟩) ⟨0, 0, g⟩
  let new_velocity := vadd state.velocity (smul dt acceleration)
  let new_position := vadd state.position (smul dt new_velocity)
  let angular_acceleration :=
    mulVec inertiaInv
      (vsub commands.u2 (vcross state.angular_velocity (mulVec inertia state.angular_velocity)))
  let new_angular_velocity := vadd state.angular_velocity (smul dt angular_acceleration)
  let new_orientation := dRot3 state.orientation new_angular_velocity
  ⟨new_position, new_velocity, new_orientation, new_angular_velocity⟩

/-- hovering_rotor_rate from 3-Reworking.ipynb:
`sqrt(required_thrust / (4 * k_thrust))` with `required_thrust = mass * g`. -/
def hovering_rotor_rate : ℝ := Real.sqrt (mass * g / (4 * k_thrust))

/-! The cascaded PD controller of 5-Controller-Full.ipynb. -/

/-- ControllerParams from 5-Controller-Full.ipynb: four 3x3 gain matrices and
the rotor-rate saturation bounds. -/
@[ext]
structure ControllerParams where
  K_p : Mat3
  K_d : Mat3
  Ka_p : Mat3
  Ka_d : Mat3
  rotor_rate_min : ℝ
  rotor_rate_max : ℝ

/-- controller_p: the default ControllerParams instance. -/
def controller_p : ControllerParams :=
  ⟨diag 1 1 100, diag 0.5 0.5 10, diag 300 300 50, diag 50 50 20, 180, 600⟩

/-- The Controller class: its only attribute is the params object. -/
@[ext]
structure Controller where
  params : ControllerParams

/-- Controller.__init__ from 5-Controller-Full.ipynb: stores the given params
object on the instance; the body is the single line `self.params = params`. -/
def mkController (params : ControllerParams) : Controller := ⟨params⟩

/-- Controller.step from 5-Controller-Full.ipynb, transcribed line by line:
position and velocity PD loop, thrust `u1 = mass * (g + ca.z)`, desired
roll/pitch from the yaw-rotated horizontal commanded acceleration, attitude
error as the skew part of the error rotation matrix, and the attitude PD loop
for u2. -/
def Controller.step (self : Controller) (t : ℝ) (trajectory : TrajectoryState)
    (state : QuadrotorState) : QuadrotorCommands :=
  let desired_position := trajectory.position
  let actual_position := state.position
  let position_error := vsub desired_position actual_position
  let desired_velocity := vzero
  let actual_velocity := state.velocity
  let velocity_error := vsub desired_velocity actual_velocity
  let commanded_acceleration :=
    vadd (mulVec self.params.K_p position_error) (mulVec self.params.K_d velocity_error)
  let u1 := mass * (g + commanded_acceleration.z)
  let yaw := (to_yaw_pitch_roll state.orientation).1
  let phi_des :=
    (1 / g) * (commanded_acceleration.x * Real.sin yaw - commanded_acceleration.y * Real.cos yaw)
  let theta_des :=
    (1 / g) * (commanded_acceleration.x * Real.cos yaw + commanded_acceleration.y * Real.sin yaw)
  let desired_orientation := from_yaw_pitch_roll trajectory.yaw theta_des phi_des
  let orientation_error := compose desired_orientation (inverse state.orientation)
  let orientation_error_matrix := toRotationMatrix orientation_error
  let orientation_error_vec : Vec3 :=
    ⟨orientation_error_matrix.m21, orientation_error_matrix.m02, orientation_error_matrix.m10⟩
  let angular_velocity_error := vsub vzero state.angular_velocity
  let u2 :=
    vadd (mulVec self.params.Ka_p orientation_error_vec)
      (mulVec self.params.Ka_d angular_velocity_error)
  ⟨u1, u2⟩

/-- Modelled from the spec: gains must be positive-definite, that is diagonal
with strictly positive diagonal entries (spec 4.3 failure cases and the
configuration-error taxonomy of spec section 7). -/
def gains_positive_definite (M : Mat3) : Prop :=
  M.m01 = 0 ∧ M.m02 = 0 ∧ M.m10 = 0 ∧ M.m12 = 0 ∧ M.m20 = 0 ∧ M.m21 = 0 ∧
    0 < M.m00 ∧ 0 < M.m11 ∧ 0 < M.m22

/-! Helper lemmas, shared by several developments. -/

/-- Multiplying any matrix by the zero vector gives the zero vector. -/
lemma mulVec_vzero (M : Mat3) : mulVec M vzero = vzero := by
  simp [mulVec, vzero]

/-- Subtracting a vector from itself gives the zero vector. -/
lemma vsub_self_vec (v : Vec3) : vsub v v = vzero := by
  simp [vsub, vzero]

/-- The thrust and torque coefficients are positive. -/
lemma rotor_model_pos (c : ℝ) (hc : 0 < c) : 0 < rotor_model c := by
  have hpi : (0 : ℝ) < Real.pi := Real.pi_pos
  unfold rotor_model rho rotor_diameter
  apply div_pos
  · positivity
  · nlinarith

/-- Positivity of the derived thrust coefficient. -/
lemma k_thrust_pos : 0 < k_thrust :=
  rotor_model_pos static_thrust_coefficient (by norm_num [static_thrust_coefficient])

/-- Positivity of the derived torque coefficient. -/
lemma k_torque_pos : 0 < k_torque :=
  rotor_model_pos static_torque_coefficient (by norm_num [static_torque_coefficient])

/-- A pure-yaw rotation in quaternion form. -/
lemma from_ypr_zero (y : ℝ) :
    from_yaw_pitch_roll y 0 0 = ⟨0, 0, Real.sin (y / 2), Real.cos (y / 2)⟩ := by
  simp only [from_yaw_pitch_roll, compose, Quat.mk.injEq, zero_div, Real.sin_zero,
    Real.cos_zero]
  refine ⟨by ring, by ring, by ring, by ring⟩

/-- Composing a pure-yaw rotation with its inverse gives the identity
quaternion exactly, by the Pythagorean identity. -/
lemma error_of_matched_ypr (y : ℝ) :
    compose (from_yaw_pitch_roll y 0 0) (inverse (from_yaw_pitch_roll y 0 0)) =
      (⟨0, 0, 0, 1⟩ : Quat) := by
  have h := Real.sin_sq_add_cos_sq (y / 2)
  rw [from_ypr_zero]
  simp only [compose, inverse, Quat.mk.injEq]
  refine ⟨by ring, by ring, by ring, by linear_combination h⟩

/-! Claim theorems. -/

/-- C1: the claim says the dynamics step keeps the orientation at unit norm by
advancing it with the parameter-rate and renormalizing. The code does neither:
evaluated at a resting state with the unit identity orientation and a
zero-torque command, the Euler-variant step returns the quaternion parameter
rate itself (the zero quaternion, of norm 0) as the new orientation. -/
theorem step_kills_orientation :
    quatNormSq (⟨0, 0, 0, 1⟩ : Quat) = 1 ∧
    (stepEuler ⟨mass * g, vzero⟩ ⟨vzero, vzero, ⟨0, 0, 0, 1⟩, vzero⟩).orientation =
      (⟨0, 0, 0, 0⟩ : Quat) := by
  constructor
  · norm_num [quatNormSq]
  · simp [stepEuler, dRot3, mulVec, vcross, vsub, vadd, smul, vzero, inertia, inertiaInv,
      diag, Quat.mk.injEq]

/-- C2: the claim says the linear acceleration of the dynamics step is
`(1/mass) * R * (0,0,u1) + (0,0,-g)` with the thrust rotated body-to-world.
Evaluated at a vehicle rolled 180 degrees (unit quaternion (1,0,0,0)) with
thrust u1 = 1, the Euler-variant step's velocity update disagrees with that
formula: the code applies the thrust along world +z without rotating it. -/
theorem step_thrust_not_rotated :
    (stepEuler ⟨1, vzero⟩ ⟨vzero, vzero, ⟨1, 0, 0, 0⟩, vzero⟩).velocity ≠
      vadd vzero
        (smul 0.005
          (vadd (smul (1 / mass) (mulVec (toRotationMatrix ⟨1, 0, 0, 0⟩) ⟨0, 0, 1⟩))
            ⟨0, 0, -g⟩)) := by
  intro h
  have hz := congrArg Vec3.z h
  norm_num [stepEuler, toRotationMatrix, mulVec, vadd, vsub, smul, vzero, mass, g] at hz

/-- C3 counterexample: the claim says the emitted thrust is clamped to be
non-negative. With the default gains and the vehicle 1 meter above the desired
position, the controller emits a strictly negative u1. -/
theorem controller_thrust_negative :
    (Controller.step (mkController controller_p) 0 ⟨0, vzero, 0, 0⟩
        ⟨⟨0, 0, 1⟩, vzero, ⟨0, 0, 0, 1⟩, vzero⟩).u1 < 0 := by
  norm_num [Controller.step, mkController, controller_p, mulVec, vadd, vsub, vzero, diag,
    mass, g]

/-- C3 amended: the emitted thrust is exactly
`mass * (g + commanded_acceleration.z)` with no non-negativity clamp. -/
theorem controller_thrust_formula (cp : ControllerParams) (t : ℝ)
    (trajectory : TrajectoryState) (state : QuadrotorState) :
    (Controller.step (mkController cp) t trajectory state).u1 =
      mass * (g + (vadd (mulVec cp.K_p (vsub trajectory.position state.position))
        (mulVec cp.K_d (vsub vzero state.velocity))).z) := rfl

/-- C4: the claim says the yaw torque is `k_torque` times the alternating-sign
sum of the squared rotor rates. The code applies the alternating-sign sum to
the raw rates instead: at rates (2,0,0,0) it produces `k_torque * 2`, not the
`k_torque * 4` the squared model requires. -/
theorem mixed_yaw_torque_unsquared :
    (mixedU2 ⟨2, 0, 0, 0⟩).z = k_torque * 2 ∧
    (mixedU2 ⟨2, 0, 0, 0⟩).z ≠
      k_torque * (2 ^ 2 - 0 ^ 2 + 0 ^ 2 - 0 ^ 2) := by
  have hk := k_torque_pos
  constructor
  · simp [mixedU2, rotor_thrust_model]
  · simp only [mixedU2, rotor_thrust_model]
    intro h
    norm_num at h
    nlinarith

/-- C5 counterexample: the claim says one step advances the state by the
driver-configured dt. With dt configured as 0.01, the Euler-variant step of a
free-falling resting vehicle does not produce the 0.01-advanced state. -/
theorem step_ignores_configured_dt :
    stepEuler ⟨0, vzero⟩ ⟨vzero, vzero, ⟨0, 0, 0, 1⟩, vzero⟩ ≠
      stepEulerBy 0.01 ⟨0, vzero⟩ ⟨vzero, vzero, ⟨0, 0, 0, 1⟩, vzero⟩ := by
  intro h
  have hz := congrArg (fun s => s.velocity.z) h
  norm_num [stepEuler, stepEulerBy, vadd, vsub, smul, vzero, mulVec, vcross, inertia,
    inertiaInv, diag, mass, g] at hz

/-- C5 amended: the Euler-variant step always advances by the interval 0.005
hardwired inside the method, for every command and state. -/
theorem step_uses_fixed_dt (commands : QuadrotorCommands) (state : QuadrotorState) :
    stepEuler commands state = stepEulerBy 0.005 commands state := rfl

/-- C7: at the goal (desired position reached, both velocities zero, zero
angular velocity, and the actual orientation equal to the desired pure-yaw
orientation), the controller emits thrust `mass * g` and the zero torque
vector. -/
theorem controller_step_at_goal (cp : ControllerParams) (t : ℝ)
    (trajectory : TrajectoryState) (state : QuadrotorState)
    (hpos : trajectory.position = state.position)
    (hvel : state.velocity = vzero)
    (homega : state.angular_velocity = vzero)
    (horient : state.orientation = from_yaw_pitch_roll trajectory.yaw 0 0) :
    (Controller.step (mkController cp) t trajectory state).u1 = mass * g ∧
    (Controller.step (mkController cp) t trajectory state).u2 = vzero := by
  have hca : vadd (mulVec cp.K_p (vsub trajectory.position trajectory.position))
      (mulVec cp.K_d (vsub vzero vzero)) = vzero := by
    rw [vsub_self_vec, vsub_self_vec, mulVec_vzero, mulVec_vzero]
    simp [vadd, vzero]
  constructor
  · simp only [Controller.step, mkController, hvel, homega, horient, ← hpos]
    rw [hca]
    simp [vzero]
  · simp only [Controller.step, mkController, hvel, homega, horient, ← hpos]
    rw [hca]
    norm_num [vzero]
    rw [error_of_matched_ypr]
    simp [toRotationMatrix, mulVec, vadd, vsub, vzero]

/-- Witness for C7 at a concrete goal configuration with zero yaw. -/
theorem controller_step_at_goal_witness :
    (Controller.step (mkController controller_p) 0 ⟨0, vzero, 0, 0⟩
        ⟨vzero, vzero, from_yaw_pitch_roll 0 0 0, vzero⟩).u1 = mass * g ∧
    (Controller.step (mkController controller_p) 0 ⟨0, vzero, 0, 0⟩
        ⟨vzero, vzero, from_yaw_pitch_roll 0 0 0, vzero⟩).u2 = vzero :=
  controller_step_at_goal controller_p 0 ⟨0, vzero, 0, 0⟩
    ⟨vzero, vzero, from_yaw_pitch_roll 0 0 0, vzero⟩ rfl rfl rfl rfl

/-- C8: at the hover rotor rate applied to all four rotors with the vehicle
level, the vertical acceleration of the dynamics model is within one percent
of g (it is exactly zero) and the mixed body torque is the zero vector. -/
theorem hover_balance :
    |(state_derivative ⟨vzero, vzero, ⟨0, 0, 0, 1⟩, vzero⟩
        (mixedU1 ⟨hovering_rotor_rate, hovering_rotor_rate, hovering_rotor_rate,
          hovering_rotor_rate⟩)
        (mixedU2 ⟨hovering_rotor_rate, hovering_rotor_rate, hovering_rotor_rate,
          hovering_rotor_rate⟩)).velocity.z| ≤ g / 100 ∧
    mixedU2 ⟨hovering_rotor_rate, hovering_rotor_rate, hovering_rotor_rate,
      hovering_rotor_rate⟩ = vzero := by
  have hk := k_thrust_pos
  have hkne : k_thrust ≠ 0 := ne_of_gt hk
  have hmne : mass ≠ 0 := by norm_num [mass]
  have harg : 0 ≤ mass * g / (4 * k_thrust) := by
    apply div_nonneg
    · norm_num [mass, g]
    · nlinarith
  have hr2 : hovering_rotor_rate ^ 2 = mass * g / (4 * k_thrust) := by
    rw [hovering_rotor_rate]
    exact Real.sq_sqrt harg
  constructor
  · have hz : (state_derivative ⟨vzero, vzero, ⟨0, 0, 0, 1⟩, vzero⟩
        (mixedU1 ⟨hovering_rotor_rate, hovering_rotor_rate, hovering_rotor_rate,
          hovering_rotor_rate⟩)
        (mixedU2 ⟨hovering_rotor_rate, hovering_rotor_rate, hovering_rotor_rate,
          hovering_rotor_rate⟩)).velocity.z = 0 := by
      simp [state_derivative, mixedU1, rotor_thrust_model, toRotationMatrix, mulVec,
        vadd, smul, vzero, hr2]
      field_simp
      right
      ring
    rw [hz]
    simp
    norm_num [g]
  · simp only [mixedU2, rotor_thrust_model, vzero, Vec3.mk.injEq]
    refine ⟨by ring, by ring, by ring⟩

/-- C9 counterexample: the claim says invalid gains are rejected at
construction time. The constructor accepts a K_p with a negative diagonal
entry and stores it unchanged: nothing is rejected. -/
theorem controller_accepts_invalid_gains :
    ¬ gains_positive_definite (diag (-1) 1 100) ∧
    (mkController ⟨diag (-1) 1 100, diag 0.5 0.5 10, diag 300 300 50, diag 50 50 20,
        180, 600⟩).params.K_p = diag (-1) 1 100 := by
  constructor
  · intro h
    have h7 := h.2.2.2.2.2.2.1
    norm_num [diag] at h7
  · rfl

/-- C9 amended: construction performs no validation at all; for every
parameter object, valid or not, the constructor returns a controller exposing
exactly the given parameters. -/
theorem mkController_stores_params (ps : ControllerParams) :
    (mkController ps).params = ps := rfl

/-- C10: the quaternion parameter-rate returned by dRot3 is 4-orthogonal to
the quaternion itself, so the exact kinematic flow preserves the quaternion
norm; and at zero angular velocity the rate is the zero tangent vector. -/
theorem dRot3_orthogonal (q : Quat) (omega : Vec3) :
    quatDot q (dRot3 q omega) = 0 ∧ dRot3 q vzero = (⟨0, 0, 0, 0⟩ : Quat) := by
  constructor
  · simp only [quatDot, dRot3]
    ring
  · simp only [dRot3, vzero, Quat.mk.injEq]
    refine ⟨by ring, by ring, by ring, by ring⟩

end Quadrotor
